import Mathlib

/-!
Shallow embedding of `src/apps/gateway/src/events/serialize.rs`.

The file under verification converts upstream Twilight gateway events into
JSON payloads for NATS publishing.  The single function of interest is
`serialize_event(event: &Event, shard_id: u64) -> Option<GatewayEvent>`.

Modelling decisions, each traceable to the Rust source:

* `serde_json::Value` is modelled by the inductive `Json` below
  (null / bool / number / string / array / object, an object being an
  association list of key-value pairs in construction order).
* Snowflake identifiers (guild, user, channel, role, interaction ids) are
  only ever consumed through `.to_string()` in this file, so they are
  modelled directly in their stringified text form (`String`); the
  stringification map is injective, so nothing is lost.
* `Uuid::new_v4().to_string()` (the freshly generated random event id) and
  the `SystemTime::now()` millisecond capture are the two injected sources
  of freshness; the Rust function draws exactly one of each per call, so
  the embedding passes them as explicit arguments `uuid` and `timestamp`.
* `serde_json::to_value(guild.as_ref())` on the full guild object can fail
  structurally; its outcome is modelled as the field `encoded : Option Json`
  of the guild payload (`none` = encoding failure).  The Rust
  `unwrap_or_else(|e| { warn!(..); Value::Null })` becomes
  `Option.getD · Json.null`; the `warn!` diagnostic is a log side effect
  with no data flow.
* `interaction.author_id()` is a twilight-model library method resolving
  the acting author (member user id or direct user id); its result is
  modelled as the field `author_id : Option String` of the interaction
  payload.
* The wildcard arm `_ => None` of the Rust match covers every other
  twilight event variant; they are collapsed into the constructor
  `Event.Other`.
-/

/-- JSON-like structured value, modelling `serde_json::Value`. Objects are
association lists kept in the construction order of the `json!` literal. -/
inductive Json where
  | null : Json
  | bool : Bool → Json
  | num : Nat → Json
  | str : String → Json
  | arr : List Json → Json
  | obj : List (String × Json) → Json

/-- The keys of a JSON object (empty for non-objects). -/
def Json.keys : Json → List String
  | .obj fields => fields.map Prod.fst
  | _ => []

/-- Whether a JSON value is an object carrying the key `k`. -/
def Json.hasKey (j : Json) (k : String) : Bool :=
  j.keys.contains k

/-- serde serialization of `Option<String>`: `None` becomes JSON null. -/
def jsonOfStringOpt : Option String → Json
  | some s => .str s
  | none => .null

/-- The twilight `InteractionType` enumeration (the interaction kind). -/
inductive InteractionType where
  | Ping
  | ApplicationCommand
  | MessageComponent
  | ApplicationCommandAutocomplete
  | ModalSubmit

/-- The derived Debug rendering of an interaction kind: Rust
`format!("\x7b:?\x7d", interaction.kind)` yields the variant tag name. -/
def InteractionType.debugName : InteractionType → String
  | .Ping => "Ping"
  | .ApplicationCommand => "ApplicationCommand"
  | .MessageComponent => "MessageComponent"
  | .ApplicationCommandAutocomplete => "ApplicationCommandAutocomplete"
  | .ModalSubmit => "ModalSubmit"

/-- Payload of `Event::GuildCreate`: the guild id (via `guild.id()`,
stringified) and the outcome of `serde_json::to_value` on the full guild
object (`none` models a structural encoding failure). -/
structure GuildCreatePayload where
  id : String
  encoded : Option Json

/-- Payload of `Event::GuildDelete`: `guild.id` and `guild.unavailable`. -/
structure GuildDeletePayload where
  id : String
  unavailable : Bool

/-- The fields of `member.user` read by the serializer. -/
structure UserRef where
  id : String
  name : String
  discriminator : Nat

/-- Payload of `Event::MemberAdd`: `member.guild_id` and `member.user`. -/
structure MemberAddPayload where
  guild_id : String
  user : UserRef

/-- Payload of `Event::MemberRemove`: `member.guild_id` and `member.user`. -/
structure MemberRemovePayload where
  guild_id : String
  user : UserRef

/-- Payload of `Event::MemberUpdate`: guild id, user, role id list (role
snowflakes in their stringified form, source order), and nickname. -/
structure MemberUpdatePayload where
  guild_id : String
  user : UserRef
  roles : List String
  nick : Option String

/-- The channel attached to an interaction; only `c.id` is read. -/
structure ChannelRef where
  id : String

/-- Payload of `Event::InteractionCreate`: the fields the serializer reads
(`interaction.id`, `.kind`, `.token`, `.guild_id`, `.channel`, and the
resolution of the twilight library method `interaction.author_id()`). -/
structure InteractionPayload where
  id : String
  kind : InteractionType
  token : String
  guild_id : Option String
  channel : Option ChannelRef
  author_id : Option String

/-- The upstream twilight `Event` variants distinguished by the Rust match;
`Other` stands for every variant reaching the wildcard `_ => None` arm.
Payloads of `GatewayHello`, `GatewayInvalidateSession` and `Ready` are
ignored by the serializer and therefore omitted. -/
inductive Event where
  | GuildCreate : GuildCreatePayload → Event
  | GuildDelete : GuildDeletePayload → Event
  | MemberAdd : MemberAddPayload → Event
  | MemberRemove : MemberRemovePayload → Event
  | MemberUpdate : MemberUpdatePayload → Event
  | InteractionCreate : InteractionPayload → Event
  | GatewayHeartbeat : Event
  | GatewayHeartbeatAck : Event
  | GatewayHello : Event
  | GatewayInvalidateSession : Event
  | GatewayReconnect : Event
  | Ready : Event
  | Other : Event

/-- The generic gateway event payload `GatewayEvent` of the Rust file. -/
structure GatewayEvent where
  event_id : String
  event_type : String
  shard_id : Nat
  timestamp : Nat
  guild_id : Option String
  channel_id : Option String
  user_id : Option String
  data : Json

/-- The Rust struct `InteractionEvent` ("Interaction-specific event
payload").  It is declared in the source file but `serialize_event` never
constructs it: interactions are serialized as generic `GatewayEvent`s. -/
structure InteractionEvent where
  event_id : String
  shard_id : Nat
  timestamp : Nat
  interaction_id : String
  interaction_token : String
  guild_id : Option String
  channel_id : String
  user_id : String
  command_name : Option String
  subcommand : Option String
  data : Json

/-- Embedding of `serialize_event(event, shard_id)`.  `uuid` is the value
of the one `Uuid::new_v4().to_string()` drawn by the executed match arm and
`timestamp` the millisecond wall-clock capture taken at the head of the
call; both are per-call inputs (see the header comment). -/
def serialize_event (event : Event) (shard_id : Nat) (uuid : String)
    (timestamp : Nat) : Option GatewayEvent :=
  match event with
  | .GuildCreate guild =>
      some { event_id := uuid
             event_type := "guild.join"
             shard_id := shard_id
             timestamp := timestamp
             guild_id := some guild.id
             channel_id := none
             user_id := none
             data := guild.encoded.getD Json.null }
  | .GuildDelete guild =>
      some { event_id := uuid
             event_type := "guild.leave"
             shard_id := shard_id
             timestamp := timestamp
             guild_id := some guild.id
             channel_id := none
             user_id := none
             data := Json.obj [("unavailable", Json.bool guild.unavailable)] }
  | .MemberAdd member =>
      some { event_id := uuid
             event_type := "member.join"
             shard_id := shard_id
             timestamp := timestamp
             guild_id := some member.guild_id
             channel_id := none
             user_id := some member.user.id
             data := Json.obj [("username", Json.str member.user.name),
                               ("discriminator", Json.num member.user.discriminator)] }
  | .MemberRemove member =>
      some { event_id := uuid
             event_type := "member.leave"
             shard_id := shard_id
             timestamp := timestamp
             guild_id := some member.guild_id
             channel_id := none
             user_id := some member.user.id
             data := Json.null }
  | .MemberUpdate member =>
      some { event_id := uuid
             event_type := "member.update"
             shard_id := shard_id
             timestamp := timestamp
             guild_id := some member.guild_id
             channel_id := none
             user_id := some member.user.id
             data := Json.obj [("roles", Json.arr (member.roles.map Json.str)),
                               ("nick", jsonOfStringOpt member.nick)] }
  | .InteractionCreate interaction =>
      some { event_id := uuid
             event_type := "interaction.create"
             shard_id := shard_id
             timestamp := timestamp
             guild_id := interaction.guild_id
             channel_id := interaction.channel.map ChannelRef.id
             user_id := interaction.author_id
             data := Json.obj [("interaction_id", Json.str interaction.id),
                               ("interaction_type", Json.str interaction.kind.debugName),
                               ("interaction_token", Json.str interaction.token)] }
  | .GatewayHeartbeat => none
  | .GatewayHeartbeatAck => none
  | .GatewayHello => none
  | .GatewayInvalidateSession => none
  | .GatewayReconnect => none
  | .Ready => none
  | .Other => none

/-- C3: for every shard id (and whatever per-call uuid and timestamp are
drawn), normalizing a heartbeat, heartbeat-ack, hello, invalidate-session,
reconnect, or ready upstream event returns no envelope. -/
theorem drop_set_yields_none (s : Nat) (u : String) (t : Nat) :
    serialize_event .GatewayHeartbeat s u t = none ∧
    serialize_event .GatewayHeartbeatAck s u t = none ∧
    serialize_event .GatewayHello s u t = none ∧
    serialize_event .GatewayInvalidateSession s u t = none ∧
    serialize_event .GatewayReconnect s u t = none ∧
    serialize_event .Ready s u t = none :=
  ⟨rfl, rfl, rfl, rfl, rfl, rfl⟩

/-- C5: every member-updated upstream event yields an envelope with
event_type "member.update", the event's guild and user ids, and data equal
to the object with the stringified role list in source order under key
"roles" and the nickname under key "nick". -/
theorem member_update_envelope (m : MemberUpdatePayload) (s : Nat) (u : String)
    (t : Nat) :
    serialize_event (.MemberUpdate m) s u t =
      some { event_id := u, event_type := "member.update", shard_id := s,
             timestamp := t, guild_id := some m.guild_id, channel_id := none,
             user_id := some m.user.id,
             data := Json.obj [("roles", Json.arr (m.roles.map Json.str)),
                               ("nick", jsonOfStringOpt m.nick)] } := rfl

/-- C6: every member-removed upstream event yields an envelope with
event_type "member.leave", guild_id present, user_id present, channel_id
absent, and data equal to JSON null. -/
theorem member_leave_envelope (m : MemberRemovePayload) (s : Nat) (u : String)
    (t : Nat) :
    serialize_event (.MemberRemove m) s u t =
      some { event_id := u, event_type := "member.leave", shard_id := s,
             timestamp := t, guild_id := some m.guild_id, channel_id := none,
             user_id := some m.user.id, data := Json.null } := rfl

/-- C9: an interaction-create event with an absent channel or an
unresolvable acting author is still forwarded (the call returns an
envelope), and in the emitted generic envelope the corresponding
channel_id and/or user_id fields are none. -/
theorem interaction_absent_context_not_dropped (i : InteractionPayload)
    (s : Nat) (u : String) (t : Nat) :
    (serialize_event (.InteractionCreate i) s u t).isSome = true ∧
    (i.channel = none →
      (serialize_event (.InteractionCreate i) s u t).map GatewayEvent.channel_id =
        some none) ∧
    (i.author_id = none →
      (serialize_event (.InteractionCreate i) s u t).map GatewayEvent.user_id =
        some none) := by
  refine ⟨rfl, fun h => ?_, fun h => ?_⟩ <;> simp [serialize_event, h]

/-- Witness for C9 at a concrete interaction with no channel and no
resolvable author. -/
theorem interaction_absent_context_witness :
    ({ id := "I1", kind := .Ping, token := "tk", guild_id := none,
       channel := none, author_id := none } : InteractionPayload).channel = none ∧
    (serialize_event (.InteractionCreate
        { id := "I1", kind := .Ping, token := "tk", guild_id := none,
          channel := none, author_id := none }) 3 "u9" 7).map
      GatewayEvent.channel_id = some none ∧
    (serialize_event (.InteractionCreate
        { id := "I1", kind := .Ping, token := "tk", guild_id := none,
          channel := none, author_id := none }) 3 "u9" 7).map
      GatewayEvent.user_id = some none :=
  ⟨rfl,
   (interaction_absent_context_not_dropped
     { id := "I1", kind := .Ping, token := "tk", guild_id := none,
       channel := none, author_id := none } 3 "u9" 7).2.1 rfl,
   (interaction_absent_context_not_dropped
     { id := "I1", kind := .Ping, token := "tk", guild_id := none,
       channel := none, author_id := none } 3 "u9" 7).2.2 rfl⟩

/-- C2: the call never aborts; if the nested guild payload of a
guild-created event cannot be structurally encoded, the data sub-field is
substituted with JSON null and the envelope is still produced with all
other fields populated. -/
theorem guild_create_encode_failure_null (g : GuildCreatePayload) (s : Nat)
    (u : String) (t : Nat) (h : g.encoded = none) :
    serialize_event (.GuildCreate g) s u t =
      some { event_id := u, event_type := "guild.join", shard_id := s,
             timestamp := t, guild_id := some g.id, channel_id := none,
             user_id := none, data := Json.null } := by
  simp [serialize_event, h]

/-- Witness for C2 at a concrete guild whose structural encoding failed. -/
theorem guild_create_encode_failure_witness :
    ({ id := "G1", encoded := none } : GuildCreatePayload).encoded = none ∧
    serialize_event (.GuildCreate { id := "G1", encoded := none }) 2 "u1" 5 =
      some { event_id := "u1", event_type := "guild.join", shard_id := 2,
             timestamp := 5, guild_id := some "G1", channel_id := none,
             user_id := none, data := Json.null } :=
  ⟨rfl, guild_create_encode_failure_null { id := "G1", encoded := none } 2 "u1" 5 rfl⟩

/-- C1 counterexample: the claim that every interaction-create event yields
an InteractionEnvelope with mandatory (non-optional) channel_id and user_id
strings is false: `serialize_event` returns a generic `GatewayEvent` whose
channel and user fields are optional, and at this concrete input (an
interaction with no channel and no resolvable author) both are none. -/
theorem interaction_mandatory_fields_counterexample :
    serialize_event (.InteractionCreate
        { id := "I0", kind := .Ping, token := "tok", guild_id := none,
          channel := none, author_id := none }) 0 "u0" 0 =
      some { event_id := "u0", event_type := "interaction.create", shard_id := 0,
             timestamp := 0, guild_id := none, channel_id := none,
             user_id := none,
             data := Json.obj [("interaction_id", Json.str "I0"),
                               ("interaction_type", Json.str "Ping"),
                               ("interaction_token", Json.str "tok")] } := rfl

/-- C1 amended: an interaction-create event is normalized to a generic
GatewayEvent (not a distinct InteractionEvent) in which channel_id and
user_id are optional strings; when the interaction carries a channel and a
resolvable acting author, both fields are populated, e.g. channel "C4" and
user "U7" yield channel_id = some "C4" and user_id = some "U7". -/
theorem interaction_channel_user_populated (i : InteractionPayload) (s : Nat)
    (u : String) (t : Nat) (c : ChannelRef) (a : String)
    (hc : i.channel = some c) (ha : i.author_id = some a) :
    serialize_event (.InteractionCreate i) s u t =
      some { event_id := u, event_type := "interaction.create", shard_id := s,
             timestamp := t, guild_id := i.guild_id, channel_id := some c.id,
             user_id := some a,
             data := Json.obj [("interaction_id", Json.str i.id),
                               ("interaction_type", Json.str i.kind.debugName),
                               ("interaction_token", Json.str i.token)] } := by
  simp [serialize_event, hc, ha]

/-- Witness for the amended C1 at the spec scenario: interaction I9 in
channel C4, guild G5, user U7, token tok-secret. -/
theorem interaction_channel_user_populated_witness :
    ({ id := "I9", kind := .ApplicationCommand, token := "tok-secret",
       guild_id := some "G5", channel := some { id := "C4" },
       author_id := some "U7" } : InteractionPayload).channel =
      some { id := "C4" } ∧
    serialize_event (.InteractionCreate
        { id := "I9", kind := .ApplicationCommand, token := "tok-secret",
          guild_id := some "G5", channel := some { id := "C4" },
          author_id := some "U7" }) 1 "u7" 9 =
      some { event_id := "u7", event_type := "interaction.create", shard_id := 1,
             timestamp := 9, guild_id := some "G5", channel_id := some "C4",
             user_id := some "U7",
             data := Json.obj [("interaction_id", Json.str "I9"),
                               ("interaction_type", Json.str "ApplicationCommand"),
                               ("interaction_token", Json.str "tok-secret")] } :=
  ⟨rfl,
   interaction_channel_user_populated
     { id := "I9", kind := .ApplicationCommand, token := "tok-secret",
       guild_id := some "G5", channel := some { id := "C4" },
       author_id := some "U7" } 1 "u7" 9 { id := "C4" } "U7" rfl rfl⟩

/-- C4: the data object of every interaction-create envelope has exactly
the keys interaction_id, interaction_type (the Debug tag name of the
interaction kind) and interaction_token, in particular it carries the key
"interaction_token" and no key named exactly "token". -/
theorem interaction_data_keys (i : InteractionPayload) (s : Nat) (u : String)
    (t : Nat) (env : GatewayEvent)
    (h : serialize_event (.InteractionCreate i) s u t = some env) :
    env.data.keys = ["interaction_id", "interaction_type", "interaction_token"] ∧
    env.data.hasKey "interaction_token" = true ∧
    env.data.hasKey "token" = false := by
  injection h with h
  subst h
  exact ⟨rfl, rfl, rfl⟩

/-- Witness for C4 at a concrete interaction event. -/
theorem interaction_data_keys_witness :
    ({ event_id := "u2", event_type := "interaction.create", shard_id := 0,
       timestamp := 0, guild_id := none, channel_id := none, user_id := none,
       data := Json.obj [("interaction_id", Json.str "I2"),
                         ("interaction_type", Json.str "Ping"),
                         ("interaction_token", Json.str "tk2")] } :
        GatewayEvent).data.keys =
      ["interaction_id", "interaction_type", "interaction_token"] ∧
    ({ event_id := "u2", event_type := "interaction.create", shard_id := 0,
       timestamp := 0, guild_id := none, channel_id := none, user_id := none,
       data := Json.obj [("interaction_id", Json.str "I2"),
                         ("interaction_type", Json.str "Ping"),
                         ("interaction_token", Json.str "tk2")] } :
        GatewayEvent).data.hasKey "interaction_token" = true ∧
    ({ event_id := "u2", event_type := "interaction.create", shard_id := 0,
       timestamp := 0, guild_id := none, channel_id := none, user_id := none,
       data := Json.obj [("interaction_id", Json.str "I2"),
                         ("interaction_type", Json.str "Ping"),
                         ("interaction_token", Json.str "tk2")] } :
        GatewayEvent).data.hasKey "token" = false :=
  interaction_data_keys
    { id := "I2", kind := .Ping, token := "tk2", guild_id := none,
      channel := none, author_id := none } 0 "u2" 0 _ rfl

/-- C7: whenever normalization forwards an envelope, its event_type is one
of the six closed wire values and its shard_id equals the caller's shard_id
argument unchanged. -/
theorem envelope_event_type_closed (e : Event) (s : Nat) (u : String) (t : Nat)
    (env : GatewayEvent) (h : serialize_event e s u t = some env) :
    env.event_type ∈ ["guild.join", "guild.leave", "member.join",
                      "member.leave", "member.update", "interaction.create"] ∧
    env.shard_id = s := by
  cases e <;>
    first
      | (injection h with h; subst h; exact ⟨by simp, rfl⟩)
      | exact Option.noConfusion h

/-- Witness for C7 at a concrete member-removed event. -/
theorem envelope_event_type_closed_witness :
    ({ event_id := "u3", event_type := "member.leave", shard_id := 4,
       timestamp := 11, guild_id := some "G3", channel_id := none,
       user_id := some "U3", data := Json.null } : GatewayEvent).event_type ∈
      ["guild.join", "guild.leave", "member.join", "member.leave",
       "member.update", "interaction.create"] ∧
    ({ event_id := "u3", event_type := "member.leave", shard_id := 4,
       timestamp := 11, guild_id := some "G3", channel_id := none,
       user_id := some "U3", data := Json.null } : GatewayEvent).shard_id = 4 :=
  envelope_event_type_closed
    (.MemberRemove { guild_id := "G3",
                     user := { id := "U3", name := "n", discriminator := 7 } })
    4 "u3" 11 _ rfl

/-- C8: every forwarded envelope's event_id equals the per-call freshly
generated random uuid and is never derived from event content; hence two
normalization calls on logically identical input (same event, same
shard_id) whose freshly drawn uuids differ produce envelopes with
different event_id values. -/
theorem event_id_is_uuid_and_fresh (e : Event) (s : Nat) (u₁ u₂ : String)
    (t₁ t₂ : Nat) (env₁ env₂ : GatewayEvent)
    (h₁ : serialize_event e s u₁ t₁ = some env₁)
    (h₂ : serialize_event e s u₂ t₂ = some env₂)
    (hne : u₁ ≠ u₂) :
    env₁.event_id = u₁ ∧ env₂.event_id = u₂ ∧
    env₁.event_id ≠ env₂.event_id := by
  have k : ∀ (ev : Event) (sh : Nat) (uu : String) (ts : Nat)
      (env : GatewayEvent), serialize_event ev sh uu ts = some env →
      env.event_id = uu := by
    intro ev sh uu ts env h
    cases ev <;>
      first
        | (injection h with h; subst h; rfl)
        | exact Option.noConfusion h
  refine ⟨k e s u₁ t₁ env₁ h₁, k e s u₂ t₂ env₂ h₂, ?_⟩
  rw [k e s u₁ t₁ env₁ h₁, k e s u₂ t₂ env₂ h₂]
  exact hne

/-- Witness for C8: two calls on the same guild-delete event and shard,
with distinct fresh uuids, yield distinct event_ids. -/
theorem event_id_fresh_witness :
    ("uuid-a" : String) ≠ "uuid-b" ∧
    (({ event_id := "uuid-a", event_type := "guild.leave", shard_id := 0,
        timestamp := 0, guild_id := some "G9", channel_id := none,
        user_id := none,
        data := Json.obj [("unavailable", Json.bool false)] } :
          GatewayEvent).event_id = "uuid-a" ∧
     ({ event_id := "uuid-b", event_type := "guild.leave", shard_id := 0,
        timestamp := 0, guild_id := some "G9", channel_id := none,
        user_id := none,
        data := Json.obj [("unavailable", Json.bool false)] } :
          GatewayEvent).event_id = "uuid-b" ∧
     ({ event_id := "uuid-a", event_type := "guild.leave", shard_id := 0,
        timestamp := 0, guild_id := some "G9", channel_id := none,
        user_id := none,
        data := Json.obj [("unavailable", Json.bool false)] } :
          GatewayEvent).event_id ≠
       ({ event_id := "uuid-b", event_type := "guild.leave", shard_id := 0,
          timestamp := 0, guild_id := some "G9", channel_id := none,
          user_id := none,
          data := Json.obj [("unavailable", Json.bool false)] } :
            GatewayEvent).event_id) :=
  ⟨by decide,
   event_id_is_uuid_and_fresh
     (.GuildDelete { id := "G9", unavailable := false })
     0 "uuid-a" "uuid-b" 0 0 _ _ rfl rfl (by decide)⟩

/-- C10: normalization is deterministic apart from the injected uuid and
timestamp: two calls with equal event, shard_id, uuid and timestamp that
forward an envelope forward the same envelope, field for field (the
Some/None decision itself is a function of these inputs). -/
theorem serialize_event_deterministic (e : Event) (s : Nat) (u : String)
    (t : Nat) (env₁ env₂ : GatewayEvent)
    (h₁ : serialize_event e s u t = some env₁)
    (h₂ : serialize_event e s u t = some env₂) :
    env₁ = env₂ := by
  rw [h₁] at h₂
  exact Option.some.inj h₂

/-- Witness for C10 at a concrete member-added event. -/
theorem serialize_event_deterministic_witness :
    ({ event_id := "u5", event_type := "member.join", shard_id := 1,
       timestamp := 2, guild_id := some "G8", channel_id := none,
       user_id := some "U8",
       data := Json.obj [("username", Json.str "nm"),
                         ("discriminator", Json.num 42)] } : GatewayEvent) =
      { event_id := "u5", event_type := "member.join", shard_id := 1,
        timestamp := 2, guild_id := some "G8", channel_id := none,
        user_id := some "U8",
        data := Json.obj [("username", Json.str "nm"),
                          ("discriminator", Json.num 42)] } :=
  serialize_event_deterministic
    (.MemberAdd { guild_id := "G8",
                  user := { id := "U8", name := "nm", discriminator := 42 } })
    1 "u5" 2 _ _ rfl rfl
